import Mathlib

/-!
Shallow embedding of `onnxconverter_common/container.py`.

The file models the Python runtime values that flow through the container
(`PyVal`), the two exception kinds the module raises (`ValueError`,
`TypeError`), the record types produced by the external ONNX helpers
(`NodeProto`, `TensorProto`, `ValueInfoProto`), and the two container
classes (`CommonSklearnModelContainer`, `ModelComponentContainer`).
The external helper `onnx.helper.make_node` is a parameter of the
embedded `add_node` (the module only catches its `ValueError`s); the
external helper `onnx.helper.make_tensor` is modelled as the record
constructor the spec describes. Python's in-place mutation is embedded
as state passing: a method that can raise returns the container paired
with an optional exception, and returns the caller's container unchanged
at every raise site, exactly as the source mutates `self` only after the
last raise site.
-/

/-- A Python runtime value, as far as `container.py` inspects one: the
constructors cover the types the module's validation and error paths
distinguish (`isinstance` checks, `type(...)`, iteration, `str(...)`).
A float is carried as its repr text; no arithmetic is performed on it. -/
inductive PyVal where
  | vnone : PyVal
  | vbool : Bool → PyVal
  | vint : Int → PyVal
  | vfloat : String → PyVal
  | vstr : String → PyVal
  | vlist : List PyVal → PyVal
  | vtuple : List PyVal → PyVal

/-- The exceptions `container.py` raises or catches: `ValueError` and
`TypeError`, each with its message. -/
inductive PyErr where
  | valueError : String → PyErr
  | typeError : String → PyErr
deriving DecidableEq

/-- Python `str(type(v))`, e.g. `<class 'int'>`. -/
def py_type_name : PyVal → String
  | .vnone => "<class \x27NoneType\x27>"
  | .vbool _ => "<class \x27bool\x27>"
  | .vint _ => "<class \x27int\x27>"
  | .vfloat _ => "<class \x27float\x27>"
  | .vstr _ => "<class \x27str\x27>"
  | .vlist _ => "<class \x27list\x27>"
  | .vtuple _ => "<class \x27tuple\x27>"

/-- The bare type name Python uses in iteration errors, e.g. `int`. -/
def py_bare_type_name : PyVal → String
  | .vnone => "NoneType"
  | .vbool _ => "bool"
  | .vint _ => "int"
  | .vfloat _ => "float"
  | .vstr _ => "str"
  | .vlist _ => "list"
  | .vtuple _ => "tuple"

/-- Message of the `TypeError` Python raises when a `for` loop or a
generator iterates a non-iterable value. -/
def not_iterable_msg (v : PyVal) : String :=
  "\x27" ++ py_bare_type_name v ++ "\x27 object is not iterable"

/-- Python iteration: a list or tuple yields its elements, a string yields
its one-character strings, and every other modelled value is not iterable
(`none` stands for the `TypeError` iteration raises). -/
def pyIter : PyVal → Option (List PyVal)
  | .vlist xs => some xs
  | .vtuple xs => some xs
  | .vstr s => some (s.data.map fun c => .vstr (String.mk [c]))
  | _ => none

mutual
/-- Python `repr` of a modelled value (strings are quoted, containers
repr their elements; escaping inside reprs is not modelled). -/
def pyRepr : PyVal → String
  | .vnone => "None"
  | .vbool b => if b then "True" else "False"
  | .vint i => toString i
  | .vfloat r => r
  | .vstr s => "\x27" ++ s ++ "\x27"
  | .vlist xs => "[" ++ String.intercalate ", " (pyReprList xs) ++ "]"
  | .vtuple xs =>
      "(" ++ String.intercalate ", " (pyReprList xs)
          ++ (if xs.length == 1 then ",)" else ")")

/-- Reprs of a list of values, in order. -/
def pyReprList : List PyVal → List String
  | [] => []
  | x :: xs => pyRepr x :: pyReprList xs
end

/-- Python `str(v)`: like `repr` except that a string is shown unquoted. -/
def py_str (v : PyVal) : String :=
  match v with
  | .vstr s => s
  | _ => pyRepr v

/-- Whether a modelled value is a Python `str` (`isinstance(v, str)`). -/
def isStr : PyVal → Bool
  | .vstr _ => true
  | _ => false

/-- The string carried by a `str` value, `none` otherwise. -/
def asStr : PyVal → Option String
  | .vstr s => some s
  | _ => none

/-- Python truthiness of an optional doc string: absent and empty are
falsy, a non-empty string is truthy. -/
def py_truthy_str : Option String → Bool
  | none => false
  | some s => !s.isEmpty

/-- A NodeProto as far as `container.py` touches one: built by the
external `make_node` helper, its `domain` field then overwritten. -/
structure NodeProto where
  op_type : String
  input : List String
  output : List String
  domain : String
  attrs : List (String × PyVal)

/-- A TensorProto record as the spec describes the external
`make_tensor` result: name, element type, shape, flattened content. -/
structure TensorProto where
  name : String
  data_type : Int
  dims : List (Option Int)
  vals : List PyVal

/-- A ValueInfoProto record: name, converted type (kept opaque as a
string), and an optional doc string (`none` models the field not set). -/
structure ValueInfoProto where
  name : String
  type : String
  doc_string : Option String
deriving DecidableEq

/-- The `type` object of a converter variable: its `to_onnx_type()`
conversion result (kept opaque) and its optional `doc_string`. -/
structure VariableType where
  to_onnx_type : String
  doc_string : Option String
deriving DecidableEq

/-- A converter variable as `_make_value_info` reads one: a `full_name`
and a `type`. -/
structure Variable where
  full_name : String
  type : VariableType
deriving DecidableEq

/-- A raw-model variable as the sklearn-style container stores one:
`obj_id` models Python object identity (default `==` on plain objects),
`raw_name` is the attribute `input_names`/`output_names` project to. -/
structure PyVariable where
  obj_id : Nat
  raw_name : String
deriving DecidableEq

/-- The signature of the external `onnx.helper.make_node` collaborator:
it receives the validated op type, input names, output names and the
attribute dictionary, and either returns a node or raises. -/
abbrev MakeNodeFn : Type :=
  String → List String → List String → List (String × PyVal) → Except PyErr NodeProto

/-- Modelled from the spec: the external `onnx.helper.make_tensor`
helper (spec section 6) "builds a constant-tensor record (name, element
type, shape, flattened content)"; its own validation is out of the
spec's scope, so it is embedded as the record constructor. -/
def make_tensor (name : String) (data_type : Int) (dims : List (Option Int))
    (vals : List PyVal) : TensorProto :=
  { name := name, data_type := data_type, dims := dims, vals := vals }

/-- The sklearn-style raw model container: two ordered lists of
variable handles (`self._inputs`, `self._outputs`). -/
structure CommonSklearnModelContainer where
  _inputs : List PyVariable
  _outputs : List PyVariable
deriving DecidableEq

/-- `CommonSklearnModelContainer.input_names`: project `_inputs` to raw names. -/
def CommonSklearnModelContainer.input_names (self : CommonSklearnModelContainer) :
    List String :=
  self._inputs.map PyVariable.raw_name

/-- `CommonSklearnModelContainer.output_names`: project `_outputs` to raw names. -/
def CommonSklearnModelContainer.output_names (self : CommonSklearnModelContainer) :
    List String :=
  self._outputs.map PyVariable.raw_name

/-- `CommonSklearnModelContainer.add_input`: append the variable unless
it is already present (`if variable not in self._inputs`). -/
def CommonSklearnModelContainer.add_input (self : CommonSklearnModelContainer)
    (var : PyVariable) : CommonSklearnModelContainer :=
  if var ∈ self._inputs then self
  else { self with _inputs := self._inputs ++ [var] }

/-- `CommonSklearnModelContainer.add_output`: append the variable unless
it is already present (`if variable not in self._outputs`). -/
def CommonSklearnModelContainer.add_output (self : CommonSklearnModelContainer)
    (var : PyVariable) : CommonSklearnModelContainer :=
  if var ∈ self._outputs then self
  else { self with _outputs := self._outputs ++ [var] }

/-- The graph component container: the fields `__init__` creates. The
Python `set` of (domain, version) pairs is embedded as a `Finset`. -/
structure ModelComponentContainer where
  inputs : List ValueInfoProto
  outputs : List ValueInfoProto
  initializers : List TensorProto
  value_info : List ValueInfoProto
  nodes : List NodeProto
  node_domain_version_pair_sets : Finset (String × Int)
  target_opset : Int
  enable_optimizer : Bool

/-- `ModelComponentContainer.__init__`: all collections start empty, the
optimizer flag starts true. -/
def ModelComponentContainer.init (target_opset : Int) : ModelComponentContainer :=
  { inputs := [], outputs := [], initializers := [], value_info := [], nodes := [],
    node_domain_version_pair_sets := ∅, target_opset := target_opset,
    enable_optimizer := true }

/-- `ModelComponentContainer._make_value_info`: copy the variable's full
name and converted type; set the doc string only when the variable's
type's `doc_string` is truthy. -/
def _make_value_info (var : Variable) : ValueInfoProto :=
  { name := var.full_name,
    type := var.type.to_onnx_type,
    doc_string :=
      if py_truthy_str var.type.doc_string then var.type.doc_string else none }

/-- `ModelComponentContainer.add_input`: append the value info record. -/
def ModelComponentContainer.add_input (self : ModelComponentContainer)
    (var : Variable) : ModelComponentContainer :=
  { self with inputs := self.inputs ++ [_make_value_info var] }

/-- `ModelComponentContainer.add_output`: append the value info record. -/
def ModelComponentContainer.add_output (self : ModelComponentContainer)
    (var : Variable) : ModelComponentContainer :=
  { self with outputs := self.outputs ++ [_make_value_info var] }

/-- `ModelComponentContainer.add_value_info`: append the value info record. -/
def ModelComponentContainer.add_value_info (self : ModelComponentContainer)
    (var : Variable) : ModelComponentContainer :=
  { self with value_info := self.value_info ++ [_make_value_info var] }

/-- `ModelComponentContainer.add_initializer`: raise when a shape
dimension is `None`, otherwise append the tensor `make_tensor` builds.
The pair returned is (container after the call, exception raised). -/
def ModelComponentContainer.add_initializer (self : ModelComponentContainer)
    (name : String) (onnx_type : Int) (shape : List (Option Int))
    (content : List PyVal) : ModelComponentContainer × Option PyErr :=
  if shape.any fun d => d.isNone then
    (self, some (.valueError "Shape of initializer cannot contain None"))
  else
    let tensor := make_tensor name onnx_type shape content
    ({ self with initializers := self.initializers ++ [tensor] }, none)

/-- Message of the `ValueError` raised when `inputs`/`outputs` is not a
list of strings: it joins `str(type(s))` of every element with commas
(`'%s must be a list of string but get [%s]'`). -/
def str_seq_err_msg (label : String) (elems : List PyVal) : String :=
  label ++ " must be a list of string but get ["
    ++ String.intercalate "," (elems.map py_type_name) ++ "]"

/-- Lines 161-166 of `add_node` for one argument (after the single-string
wrap): a list/tuple whose elements are all strings passes; a list/tuple
with a non-string element raises the `ValueError` enumerating every
element's runtime type; any other value is first iterated by the message
generator itself, so a non-iterable argument raises Python's iteration
`TypeError` instead. -/
def check_str_seq (label : String) (arg : PyVal) : Except PyErr (List String) :=
  match arg with
  | .vlist xs =>
      if xs.all isStr then .ok (xs.filterMap asStr)
      else .error (.valueError (str_seq_err_msg label xs))
  | .vtuple xs =>
      if xs.all isStr then .ok (xs.filterMap asStr)
      else .error (.valueError (str_seq_err_msg label xs))
  | other =>
      match pyIter other with
      | none => .error (.typeError (not_iterable_msg other))
      | some elems => .error (.valueError (str_seq_err_msg label elems))

/-- Line 157-160 of `add_node`: `if isinstance(inputs, str): inputs = [inputs]`. -/
def wrap_str_arg (v : PyVal) : PyVal :=
  match v with
  | .vstr s => .vlist [.vstr s]
  | _ => v

/-- Lines 167-169 of `add_node`: the key of the first attribute whose
value is `None`, scanning the attribute dictionary in order. -/
def attr_none_key : List (String × PyVal) → Option String
  | [] => none
  | (k, .vnone) :: _ => some k
  | _ :: rest => attr_none_key rest

/-- Message of the `ValueError` raised for a `None` attribute value
(`'Failed to create ONNX node. Undefined attribute pair (%s, %s) found'`,
with `str(None) = "None"`). -/
def undefined_attr_msg (k : String) : String :=
  "Failed to create ONNX node. Undefined attribute pair (" ++ k ++ ", None) found"

/-- The distinct entries of a list, keeping the first occurrence of each
(`seen` accumulates the entries already kept). This models the content
and, as iteration order, the presentation of the Python `set` built on
line 175; the real set iterates in an unspecified hash order, which the
spec leaves unconstrained. -/
def set_in_order (seen : List String) : List String → List String
  | [] => []
  | t :: ts => if t ∈ seen then set_in_order seen ts else t :: set_in_order (t :: seen) ts

/-- The distinct runtime type names among a list of values
(`set(type(_) for _ in v)`), in first-occurrence order. -/
def value_types (elems : List PyVal) : List String :=
  set_in_order [] (elems.map py_type_name)

/-- Python `str` of the set of type names, e.g.
`{<class 'int'>, <class 'str'>}`. -/
def py_set_str (ts : List String) : String :=
  "\x7b" ++ String.intercalate ", " ts ++ "\x7d"

/-- The values of one runtime type, in their original order (the
grouping loop on lines 178-180 appends each value to its type's list). -/
def type_group (t : String) (elems : List PyVal) : List PyVal :=
  elems.filter fun e => py_type_name e == t

/-- Lines 183-184: the previewed entries of one type group: all values
when there are at most three, else the first three and an ellipsis
marker, each rendered with `str`. -/
def group_preview (g : List PyVal) : List String :=
  if g.length > 3 then (g.take 3).map py_str ++ ["..."] else g.map py_str

/-- Line 185: one row of the mixed-type diagnostic,
`"{type}: {comma-separated preview}"`. -/
def mixed_row (elems : List PyVal) (t : String) : String :=
  t ++ ": " ++ String.intercalate ", " (group_preview (type_group t elems))

/-- Lines 186-187: the message of the mixed-type `TypeError`:
`"Attribute '{k}' mixes types {set}\n{rows}."`. -/
def mixed_attr_msg (k : String) (elems : List PyVal) : String :=
  "Attribute \x27" ++ k ++ "\x27 mixes types " ++ py_set_str (value_types elems)
    ++ "\n" ++ String.intercalate "\n" ((value_types elems).map (mixed_row elems)) ++ "."

/-- Lines 174-188: the `except ValueError` handler. It walks the
attributes in order; for each it builds `set(type(_) for _ in v)` — so a
non-iterable value makes the handler itself raise the iteration
`TypeError` — and raises the mixed-type `TypeError` at the first
attribute with more than one value type; if the walk finishes, the
original exception is re-raised unchanged. -/
def handle_value_error : List (String × PyVal) → PyErr → PyErr
  | [], e => e
  | (k, v) :: rest, e =>
      match pyIter v with
      | none => .typeError (not_iterable_msg v)
      | some elems =>
          if (value_types elems).length > 1 then .typeError (mixed_attr_msg k elems)
          else handle_value_error rest e

/-- Lines 157-188 of `add_node`: everything that can raise, in source
order — wrap single strings, validate `inputs` and `outputs`, reject
`None` attribute values, then call the external `make_node`, rewriting a
`ValueError` through the mixed-type handler (any other exception kind
passes through the `except ValueError` clause untouched). -/
def make_node_checked (make_node : MakeNodeFn) (op_type : String)
    (inputs outputs : PyVal) (attrs : List (String × PyVal)) :
    Except PyErr NodeProto :=
  let inputs := wrap_str_arg inputs
  let outputs := wrap_str_arg outputs
  match check_str_seq "Inputs" inputs with
  | .error e => .error e
  | .ok input_list =>
  match check_str_seq "Outputs" outputs with
  | .error e => .error e
  | .ok output_list =>
  match attr_none_key attrs with
  | some k => .error (.valueError (undefined_attr_msg k))
  | none =>
  match make_node op_type input_list output_list attrs with
  | .error (.valueError m) => .error (handle_value_error attrs (.valueError m))
  | .error (.typeError m) => .error (.typeError m)
  | .ok node => .ok node

/-- `ModelComponentContainer.add_node`: on any raise the container is
returned as the method found it (the source mutates `self` only on
lines 191-192, after the last raise site); on success the node's domain
is stamped (line 189), the (domain, version) pair is added to the set
(line 191) and the node is appended (line 192). The pair returned is
(container after the call, exception raised). -/
def ModelComponentContainer.add_node (make_node : MakeNodeFn)
    (self : ModelComponentContainer) (op_type : String) (inputs outputs : PyVal)
    (op_domain : String) (op_version : Int) (attrs : List (String × PyVal)) :
    ModelComponentContainer × Option PyErr :=
  match make_node_checked make_node op_type inputs outputs attrs with
  | .error e => (self, some e)
  | .ok node =>
      let node := { node with domain := op_domain }
      ({ self with
          node_domain_version_pair_sets :=
            insert (op_domain, op_version) self.node_domain_version_pair_sets,
          nodes := self.nodes ++ [node] }, none)

/-- The arguments of one `add_node` call, for reasoning about call
sequences. -/
structure NodeCall where
  op_type : String
  inputs : PyVal
  outputs : PyVal
  op_domain : String
  op_version : Int
  attrs : List (String × PyVal)

/-- Run a sequence of `add_node` calls, `none` as soon as one raises. -/
def run_add_nodes (make_node : MakeNodeFn) (c : ModelComponentContainer) :
    List NodeCall → Option ModelComponentContainer
  | [] => some c
  | call :: rest =>
      match ModelComponentContainer.add_node make_node c call.op_type call.inputs
          call.outputs call.op_domain call.op_version call.attrs with
      | (c2, none) => run_add_nodes make_node c2 rest
      | (_, some _) => none

/-- A `make_node` collaborator that always raises `ValueError("boom")`:
a helper failure that does not come from a mixed-type attribute. -/
def mk_boom : MakeNodeFn := fun _ _ _ _ => Except.error (PyErr.valueError "boom")

/-- A `make_node` collaborator that always succeeds, building the node
record from its arguments. -/
def mk_plain : MakeNodeFn := fun op ins outs a =>
  Except.ok { op_type := op, input := ins, output := outs, domain := "", attrs := a }

/-- A freshly constructed container at target opset 7. -/
def c0 : ModelComponentContainer := ModelComponentContainer.init 7

/-- A concrete raw-model variable. -/
def v0 : PyVariable := { obj_id := 0, raw_name := "x0" }

/-- A concrete converter variable whose type has a non-empty doc string. -/
def var_doc : Variable :=
  { full_name := "x", type := { to_onnx_type := "tensor(float)", doc_string := some "weights" } }

/-- A concrete converter variable whose type has an empty doc string. -/
def var_nodoc : Variable :=
  { full_name := "y", type := { to_onnx_type := "tensor(float)", doc_string := some "" } }

/-- A concrete `add_node` call in the default domain. -/
def demo_call1 : NodeCall :=
  { op_type := "Conv", inputs := .vstr "x", outputs := .vstr "y",
    op_domain := "", op_version := 1, attrs := [] }

/-- A concrete `add_node` call in the `ai.onnx.ml` domain. -/
def demo_call2 : NodeCall :=
  { op_type := "Scaler", inputs := .vstr "y", outputs := .vstr "z",
    op_domain := "ai.onnx.ml", op_version := 1, attrs := [] }

/-- A call sequence in which the first pair is referenced twice. -/
def demo_calls : List NodeCall := [demo_call1, demo_call2, demo_call1]

/-- The same calls with the first two swapped. -/
def demo_calls2 : List NodeCall := [demo_call2, demo_call1, demo_call1]

/-- The container `demo_calls` builds from a fresh container. -/
def demo_c : ModelComponentContainer :=
  (run_add_nodes mk_plain (ModelComponentContainer.init 7) demo_calls).getD
    (ModelComponentContainer.init 7)

/-- The container `demo_calls2` builds from a fresh container. -/
def demo_c2 : ModelComponentContainer :=
  (run_add_nodes mk_plain (ModelComponentContainer.init 7) demo_calls2).getD
    (ModelComponentContainer.init 7)

/-- Whether an exception is a `ValueError` (used to state, binder-free,
that a raised exception is not of the kind a claim predicts). -/
def PyErr.isValueError : PyErr → Bool
  | .valueError _ => true
  | .typeError _ => false

/-- When every attribute value is iterable with at most one element
type, the `except ValueError` handler re-raises the original exception. -/
theorem handle_value_error_pass (attrs : List (String × PyVal)) (e : PyErr)
    (h : ∀ kv ∈ attrs, ∃ es, pyIter kv.2 = some es ∧ (value_types es).length ≤ 1) :
    handle_value_error attrs e = e := by
  induction attrs with
  | nil => rfl
  | cons kv rest ih =>
    obtain ⟨k, v⟩ := kv
    obtain ⟨es, hes, hlen⟩ := h (k, v) (List.mem_cons_self _ _)
    simp only [handle_value_error, hes]
    rw [if_neg (by omega)]
    exact ih fun kv hkv => h kv (List.mem_cons_of_mem _ hkv)

/-- When the attributes before `(k, v)` are iterable and homogeneous and
`v` iterates to elements of more than one type, the handler raises the
mixed-type `TypeError` for `k`. -/
theorem handle_value_error_mixed (pre post : List (String × PyVal)) (k : String)
    (v : PyVal) (e : PyErr) (elems : List PyVal)
    (hpre : ∀ kv ∈ pre, ∃ es, pyIter kv.2 = some es ∧ (value_types es).length ≤ 1)
    (hv : pyIter v = some elems) (hmix : (value_types elems).length > 1) :
    handle_value_error (pre ++ (k, v) :: post) e = .typeError (mixed_attr_msg k elems) := by
  induction pre with
  | nil => simp only [List.nil_append, handle_value_error, hv]; rw [if_pos hmix]
  | cons kv rest ih =>
    obtain ⟨k', v'⟩ := kv
    obtain ⟨es, hes, hlen⟩ := hpre (k', v') (List.mem_cons_self _ _)
    simp only [List.cons_append, handle_value_error, hes]
    rw [if_neg (by omega)]
    exact ih fun kv hkv => hpre kv (List.mem_cons_of_mem _ hkv)

/-- The per-type preview holds at most the group's first three values,
with the ellipsis marker exactly when the group is longer than three. -/
theorem group_preview_eq (g : List PyVal) :
    group_preview g
      = (g.take 3).map py_str ++ if g.length > 3 then ["..."] else [] := by
  unfold group_preview
  by_cases h : g.length > 3
  · simp [h]
  · have hle : g.length ≤ 3 := by omega
    simp [h, List.take_of_length_le hle]

/-- An attribute list holding a `None` value has a first `None` key. -/
theorem attr_none_key_isSome (attrs : List (String × PyVal)) (k : String)
    (h : (k, PyVal.vnone) ∈ attrs) : (attr_none_key attrs).isSome := by
  induction attrs with
  | nil => simp at h
  | cons kv rest ih =>
    obtain ⟨k', v⟩ := kv
    rcases List.mem_cons.mp h with heq | hmem
    · cases heq
      simp [attr_none_key]
    · cases v <;> simp only [attr_none_key, Option.isSome_some] <;>
        first | rfl | exact ih hmem

/-- A successful `add_node` call inserts exactly its (domain, version)
pair into the pair set. -/
theorem add_node_ok_pairs (make_node : MakeNodeFn) (c c' : ModelComponentContainer)
    (op_type : String) (inputs outputs : PyVal) (op_domain : String) (op_version : Int)
    (attrs : List (String × PyVal))
    (h : c.add_node make_node op_type inputs outputs op_domain op_version attrs
          = (c', none)) :
    c'.node_domain_version_pair_sets
      = insert (op_domain, op_version) c.node_domain_version_pair_sets := by
  unfold ModelComponentContainer.add_node at h
  cases hm : make_node_checked make_node op_type inputs outputs attrs with
  | error e => rw [hm] at h; injection h with h1 h2; exact absurd h2 (by simp)
  | ok node => rw [hm] at h; injection h with h1 h2; rw [← h1]

/-- Running a sequence of successful `add_node` calls unions the calls'
(domain, version) pairs into the starting pair set. -/
theorem run_add_nodes_pairs (make_node : MakeNodeFn) :
    ∀ (calls : List NodeCall) (c c' : ModelComponentContainer),
    run_add_nodes make_node c calls = some c' →
    c'.node_domain_version_pair_sets
      = c.node_domain_version_pair_sets
          ∪ (calls.map fun cl => (cl.op_domain, cl.op_version)).toFinset
  | [], c, c', h => by
      simp only [run_add_nodes, Option.some.injEq] at h
      simp [← h]
  | call :: rest, c, c', h => by
      simp only [run_add_nodes] at h
      cases hstep : ModelComponentContainer.add_node make_node c call.op_type
          call.inputs call.outputs call.op_domain call.op_version call.attrs with
      | mk c2 err =>
        rw [hstep] at h
        cases err with
        | some e => simp at h
        | none =>
          have hpairs := add_node_ok_pairs make_node c c2 call.op_type call.inputs
            call.outputs call.op_domain call.op_version call.attrs hstep
          have ih := run_add_nodes_pairs make_node rest c2 c' h
          rw [ih, hpairs]
          simp [Finset.insert_union, Finset.union_insert]

/-- C1: every `add_node` call that raises — for any reason — returns the
container exactly as it was before the call; in particular `nodes` and
`node_domain_version_pair_sets` are unchanged and no partial node record
is appended. -/
theorem claim_C1_failed_add_node_leaves_container_unchanged
    (make_node : MakeNodeFn) (c : ModelComponentContainer) (op_type : String)
    (inputs outputs : PyVal) (op_domain : String) (op_version : Int)
    (attrs : List (String × PyVal)) (e : PyErr)
    (h : (c.add_node make_node op_type inputs outputs op_domain op_version attrs).2
          = some e) :
    (c.add_node make_node op_type inputs outputs op_domain op_version attrs).1 = c
    ∧ (c.add_node make_node op_type inputs outputs op_domain op_version attrs).1.nodes
        = c.nodes
    ∧ (c.add_node make_node op_type inputs outputs op_domain op_version
        attrs).1.node_domain_version_pair_sets = c.node_domain_version_pair_sets := by
  unfold ModelComponentContainer.add_node at h ⊢
  cases hm : make_node_checked make_node op_type inputs outputs attrs with
  | error e2 => exact ⟨rfl, rfl, rfl⟩
  | ok node => rw [hm] at h; simp at h

/-- Witness for C1 at a concrete rejected call. -/
theorem claim_C1_witness :
    (c0.add_node mk_plain "Conv" (.vlist [.vint 1, .vstr "x"]) (.vlist [.vstr "y"])
        "" 1 []).1 = c0
    ∧ (c0.add_node mk_plain "Conv" (.vlist [.vint 1, .vstr "x"]) (.vlist [.vstr "y"])
        "" 1 []).1.nodes = c0.nodes
    ∧ (c0.add_node mk_plain "Conv" (.vlist [.vint 1, .vstr "x"]) (.vlist [.vstr "y"])
        "" 1 []).1.node_domain_version_pair_sets = c0.node_domain_version_pair_sets :=
  claim_C1_failed_add_node_leaves_container_unchanged mk_plain c0 "Conv"
    (.vlist [.vint 1, .vstr "x"]) (.vlist [.vstr "y"]) "" 1 []
    (.valueError (str_seq_err_msg "Inputs" [.vint 1, .vstr "x"])) rfl

/-- C5: `add_initializer` raises the invalid-argument `ValueError` and
appends nothing when some shape dimension is `None`; when every
dimension is concrete it appends exactly the one tensor record built
from the given name, element type, shape and content. -/
theorem claim_C5_add_initializer_none_shape
    (c : ModelComponentContainer) (name : String) (onnx_type : Int)
    (shape : List (Option Int)) (content : List PyVal) :
    ((shape.any fun d => d.isNone) = true →
      c.add_initializer name onnx_type shape content
        = (c, some (.valueError "Shape of initializer cannot contain None")))
    ∧ ((shape.any fun d => d.isNone) = false →
      c.add_initializer name onnx_type shape content
        = ({ c with initializers :=
              c.initializers ++ [make_tensor name onnx_type shape content] }, none)) := by
  constructor <;> intro h <;>
    simp [ModelComponentContainer.add_initializer, h]

/-- Witness for C5 at the spec's two concrete calls. -/
theorem claim_C5_witness :
    c0.add_initializer "w" 1 [some 2, none] [.vfloat "1.0", .vfloat "2.0"]
      = (c0, some (.valueError "Shape of initializer cannot contain None"))
    ∧ c0.add_initializer "w" 1 [some 2, some 1] [.vfloat "1.0", .vfloat "2.0"]
      = ({ c0 with initializers :=
            c0.initializers
              ++ [make_tensor "w" 1 [some 2, some 1] [.vfloat "1.0", .vfloat "2.0"]] },
          none) :=
  ⟨(claim_C5_add_initializer_none_shape c0 "w" 1 [some 2, none]
      [.vfloat "1.0", .vfloat "2.0"]).1 rfl,
   (claim_C5_add_initializer_none_shape c0 "w" 1 [some 2, some 1]
      [.vfloat "1.0", .vfloat "2.0"]).2 rfl⟩

/-- C6: an `add_node` call with single-string `inputs` and `outputs` has
exactly the same effect on the container as the call with the
one-element lists, whatever the helper, container and attributes. -/
theorem claim_C6_single_string_normalization
    (make_node : MakeNodeFn) (c : ModelComponentContainer) (op_type : String)
    (x y : String) (op_domain : String) (op_version : Int)
    (attrs : List (String × PyVal)) :
    c.add_node make_node op_type (.vstr x) (.vstr y) op_domain op_version attrs
      = c.add_node make_node op_type (.vlist [.vstr x]) (.vlist [.vstr y])
          op_domain op_version attrs := rfl

/-- C7: with well-formed inputs and outputs, an attribute whose value is
`None` makes `add_node` raise the invalid-attribute `ValueError` naming
the (first) offending key — and the result is the same for every
`make_node` collaborator, so the failure happens before the external
helper is invoked. -/
theorem claim_C7_none_attribute_fails_before_helper
    (c : ModelComponentContainer) (op_type : String) (inputs outputs : PyVal)
    (op_domain : String) (op_version : Int) (attrs : List (String × PyVal))
    (k : String) (ins outs : List String)
    (hins : check_str_seq "Inputs" (wrap_str_arg inputs) = .ok ins)
    (houts : check_str_seq "Outputs" (wrap_str_arg outputs) = .ok outs)
    (hmem : (k, PyVal.vnone) ∈ attrs) :
    ∃ k', attr_none_key attrs = some k'
      ∧ ∀ make_node : MakeNodeFn,
          c.add_node make_node op_type inputs outputs op_domain op_version attrs
            = (c, some (.valueError (undefined_attr_msg k'))) := by
  obtain ⟨k', hk'⟩ := Option.isSome_iff_exists.mp (attr_none_key_isSome attrs k hmem)
  refine ⟨k', hk', fun make_node => ?_⟩
  simp only [ModelComponentContainer.add_node, make_node_checked, hins, houts, hk']

/-- Witness for C7 at the spec's concrete call, with a helper that would
have succeeded had it been consulted. -/
theorem claim_C7_witness :
    c0.add_node mk_plain "Foo" (.vstr "x") (.vstr "y") "" 1 [("bad_attr", .vnone)]
      = (c0, some (.valueError (undefined_attr_msg "bad_attr"))) := by
  obtain ⟨k', hk', hall⟩ := claim_C7_none_attribute_fails_before_helper c0 "Foo"
    (.vstr "x") (.vstr "y") "" 1 [("bad_attr", .vnone)] "bad_attr" ["x"] ["y"]
    rfl rfl (by simp)
  simp only [attr_none_key, Option.some.injEq] at hk'
  rw [← hk'] at hall
  exact hall mk_plain

/-- C9: on the sklearn-style container, adding the same variable twice
leaves `input_names` at the same length after the second call, a
variable already present is not appended again, and a new variable is
appended at the end, preserving first-seen order. -/
theorem claim_C9_sklearn_add_input_dedup
    (s : CommonSklearnModelContainer) (v : PyVariable) :
    (s.add_input v).add_input v = s.add_input v
    ∧ ((s.add_input v).add_input v).input_names.length
        = (s.add_input v).input_names.length
    ∧ (v ∈ s._inputs → s.add_input v = s)
    ∧ (v ∉ s._inputs → (s.add_input v)._inputs = s._inputs ++ [v]) := by
  by_cases h : v ∈ s._inputs <;>
    simp [CommonSklearnModelContainer.add_input,
      CommonSklearnModelContainer.input_names, h]

/-- Witness for C9 at concrete containers. -/
theorem claim_C9_witness :
    (CommonSklearnModelContainer.mk [v0] []).add_input v0
        = CommonSklearnModelContainer.mk [v0] []
    ∧ ((CommonSklearnModelContainer.mk [] []).add_input v0)._inputs = [] ++ [v0] :=
  ⟨(claim_C9_sklearn_add_input_dedup (CommonSklearnModelContainer.mk [v0] []) v0).2.2.1
      (by simp),
   (claim_C9_sklearn_add_input_dedup (CommonSklearnModelContainer.mk [] []) v0).2.2.2
      (by simp)⟩

/-- C10: `add_input`, `add_output` and `add_value_info` append exactly
the record `_make_value_info` builds: its name and type are always
copied from the variable, and its doc string is set exactly when the
variable's type's doc string is truthy (present and non-empty). -/
theorem claim_C10_value_info_doc_string
    (c : ModelComponentContainer) (var : Variable) :
    (c.add_input var).inputs = c.inputs ++ [_make_value_info var]
    ∧ (c.add_output var).outputs = c.outputs ++ [_make_value_info var]
    ∧ (c.add_value_info var).value_info = c.value_info ++ [_make_value_info var]
    ∧ (_make_value_info var).name = var.full_name
    ∧ (_make_value_info var).type = var.type.to_onnx_type
    ∧ (py_truthy_str var.type.doc_string = true →
        (_make_value_info var).doc_string = var.type.doc_string)
    ∧ (py_truthy_str var.type.doc_string = false →
        (_make_value_info var).doc_string = none) := by
  refine ⟨rfl, rfl, rfl, rfl, rfl, fun h => ?_, fun h => ?_⟩ <;>
    simp [_make_value_info, h]

/-- Witness for C10 at a variable with a truthy doc string and one with
an empty doc string. -/
theorem claim_C10_witness :
    (_make_value_info var_doc).doc_string = var_doc.type.doc_string
    ∧ (_make_value_info var_nodoc).doc_string = none :=
  ⟨(claim_C10_value_info_doc_string c0 var_doc).2.2.2.2.2.1 rfl,
   (claim_C10_value_info_doc_string c0 var_nodoc).2.2.2.2.2.2 rfl⟩

/-- C2 counterexample: the helper raises `ValueError("boom")` and no
attribute mixes types — the only attribute is the scalar `1` — yet the
call does not re-raise the original failure: the diagnostic loop itself
iterates the scalar and raises the iteration `TypeError` instead. -/
theorem claim_C2_counterexample :
    (c0.add_node mk_boom "Foo" (.vstr "x") (.vstr "y") "" 1 [("a", .vint 1)]).2
      = some (.typeError "\x27int\x27 object is not iterable")
    ∧ (c0.add_node mk_boom "Foo" (.vstr "x") (.vstr "y") "" 1 [("a", .vint 1)]).2
        ≠ some (.valueError "boom") :=
  ⟨rfl, by decide⟩

/-- C2 (amended): when the helper raises a `ValueError` and every
attribute value is iterable with at most one element type, `add_node`
re-raises the original failure unchanged, leaving the container as it
was. -/
theorem claim_C2_amended_passthrough
    (make_node : MakeNodeFn) (c : ModelComponentContainer) (op_type : String)
    (inputs outputs : PyVal) (op_domain : String) (op_version : Int)
    (attrs : List (String × PyVal)) (ins outs : List String) (m : String)
    (hins : check_str_seq "Inputs" (wrap_str_arg inputs) = .ok ins)
    (houts : check_str_seq "Outputs" (wrap_str_arg outputs) = .ok outs)
    (hnone : attr_none_key attrs = none)
    (hmk : make_node op_type ins outs attrs = .error (.valueError m))
    (hattrs : ∀ kv ∈ attrs, ∃ es, pyIter kv.2 = some es ∧ (value_types es).length ≤ 1) :
    c.add_node make_node op_type inputs outputs op_domain op_version attrs
      = (c, some (.valueError m)) := by
  simp only [ModelComponentContainer.add_node, make_node_checked, hins, houts, hnone,
    hmk]
  rw [handle_value_error_pass attrs (.valueError m) hattrs]

/-- Witness for the amended C2 at a concrete pass-through failure. -/
theorem claim_C2_witness :
    c0.add_node mk_boom "Foo" (.vstr "x") (.vstr "y") "" 1
        [("alpha", .vlist [.vint 1, .vint 2])]
      = (c0, some (.valueError "boom")) :=
  claim_C2_amended_passthrough mk_boom c0 "Foo" (.vstr "x") (.vstr "y") "" 1
    [("alpha", .vlist [.vint 1, .vint 2])] ["x"] ["y"] "boom" rfl rfl rfl rfl
    (by
      intro kv hkv
      simp only [List.mem_singleton] at hkv
      subst hkv
      exact ⟨[.vint 1, .vint 2], rfl, by decide⟩)

/-- C3 counterexample: `inputs = 5` is neither a string nor a list/tuple
of strings, yet the call does not fail with the invalid-argument
`ValueError`: the message generator iterates the argument and raises the
iteration `TypeError`. -/
theorem claim_C3_counterexample :
    (c0.add_node mk_plain "Conv" (.vint 5) (.vlist [.vstr "y"]) "" 1 []).2
      = some (.typeError "\x27int\x27 object is not iterable")
    ∧ Option.map PyErr.isValueError
        (c0.add_node mk_plain "Conv" (.vint 5) (.vlist [.vstr "y"]) "" 1 []).2
      = some false :=
  ⟨rfl, rfl⟩

/-- C3 (amended): an `inputs` (or `outputs`) argument that is a list or
tuple with a non-string element makes `add_node` fail with the
invalid-argument `ValueError` whose message enumerates the runtime type
of every element, the container unchanged and the helper never
consulted; a non-iterable argument instead fails with the iteration
`TypeError` (see the counterexample). -/
theorem claim_C3_amended_bad_sequence_error
    (make_node : MakeNodeFn) (c : ModelComponentContainer) (op_type : String)
    (op_domain : String) (op_version : Int) (attrs : List (String × PyVal))
    (outputs : PyVal) (xs : List PyVal) (h : xs.all isStr = false) :
    c.add_node make_node op_type (.vlist xs) outputs op_domain op_version attrs
      = (c, some (.valueError (str_seq_err_msg "Inputs" xs)))
    ∧ c.add_node make_node op_type (.vtuple xs) outputs op_domain op_version attrs
      = (c, some (.valueError (str_seq_err_msg "Inputs" xs)))
    ∧ ∀ (inputs : PyVal) (ins : List String),
        check_str_seq "Inputs" (wrap_str_arg inputs) = .ok ins →
        c.add_node make_node op_type inputs (.vlist xs) op_domain op_version attrs
          = (c, some (.valueError (str_seq_err_msg "Outputs" xs))) := by
  refine ⟨?_, ?_, fun inputs ins hins => ?_⟩
  · simp [ModelComponentContainer.add_node, make_node_checked, check_str_seq,
      wrap_str_arg, h]
  · simp [ModelComponentContainer.add_node, make_node_checked, check_str_seq,
      wrap_str_arg, h]
  · simp only [ModelComponentContainer.add_node, make_node_checked, hins]
    simp [check_str_seq, wrap_str_arg, h]

/-- Witness for the amended C3 at the spec's concrete bad input list,
and at a bad output list. -/
theorem claim_C3_witness :
    c0.add_node mk_plain "Conv" (.vlist [.vint 1, .vstr "x"]) (.vlist [.vstr "y"])
        "" 1 []
      = (c0, some (.valueError (str_seq_err_msg "Inputs" [.vint 1, .vstr "x"])))
    ∧ c0.add_node mk_plain "Conv" (.vstr "x") (.vlist [.vint 1, .vstr "x"]) "" 1 []
      = (c0, some (.valueError (str_seq_err_msg "Outputs" [.vint 1, .vstr "x"]))) :=
  ⟨(claim_C3_amended_bad_sequence_error mk_plain c0 "Conv" "" 1 [] (.vlist [.vstr "y"])
      [.vint 1, .vstr "x"] rfl).1,
   (claim_C3_amended_bad_sequence_error mk_plain c0 "Conv" "" 1 [] (.vlist [.vstr "y"])
      [.vint 1, .vstr "x"] rfl).2.2 (.vstr "x") ["x"] rfl⟩

/-- C4 counterexample: the helper raises a `ValueError` and attribute
`vals` genuinely mixes `int` and `str`, but because the scalar attribute
`a` is walked first, the call raises the iteration `TypeError` — not the
type-conflict error naming `vals` (the raised message differs from the
mixed-type diagnostic for `vals`). -/
theorem claim_C4_counterexample :
    (c0.add_node mk_boom "Foo" (.vstr "x") (.vstr "y") "" 1
        [("a", .vint 1), ("vals", .vlist [.vint 1, .vstr "x"])]).2
      = some (.typeError "\x27int\x27 object is not iterable")
    ∧ "\x27int\x27 object is not iterable"
        ≠ mixed_attr_msg "vals" [.vint 1, .vstr "x"] :=
  ⟨rfl, by decide⟩

/-- C4 (amended): when the helper raises a `ValueError`, every attribute
walked before `(k, v)` is iterable and homogeneous, and `v` iterates to
elements of more than one runtime type, `add_node` raises the
type-conflict `TypeError` whose message names `k`, shows the set of
element types found, and previews at most three values per type with an
ellipsis marker for a longer group. -/
theorem claim_C4_amended_mixed_type_diagnostic
    (make_node : MakeNodeFn) (c : ModelComponentContainer) (op_type : String)
    (inputs outputs : PyVal) (op_domain : String) (op_version : Int)
    (pre post : List (String × PyVal)) (k : String) (v : PyVal)
    (ins outs : List String) (m : String) (elems : List PyVal)
    (hins : check_str_seq "Inputs" (wrap_str_arg inputs) = .ok ins)
    (houts : check_str_seq "Outputs" (wrap_str_arg outputs) = .ok outs)
    (hnone : attr_none_key (pre ++ (k, v) :: post) = none)
    (hmk : make_node op_type ins outs (pre ++ (k, v) :: post)
            = .error (.valueError m))
    (hpre : ∀ kv ∈ pre, ∃ es, pyIter kv.2 = some es ∧ (value_types es).length ≤ 1)
    (hv : pyIter v = some elems) (hmix : (value_types elems).length > 1) :
    c.add_node make_node op_type inputs outputs op_domain op_version
        (pre ++ (k, v) :: post)
      = (c, some (.typeError (mixed_attr_msg k elems)))
    ∧ mixed_attr_msg k elems
        = "Attribute \x27" ++ k ++ "\x27 mixes types "
            ++ py_set_str (value_types elems) ++ "\n"
            ++ String.intercalate "\n" ((value_types elems).map (mixed_row elems))
            ++ "."
    ∧ ∀ t ∈ value_types elems,
        mixed_row elems t
          = t ++ ": "
              ++ String.intercalate ", "
                (((type_group t elems).take 3).map py_str
                  ++ if (type_group t elems).length > 3 then ["..."] else []) := by
  refine ⟨?_, rfl, fun t ht => ?_⟩
  · simp only [ModelComponentContainer.add_node, make_node_checked, hins, houts,
      hnone, hmk]
    rw [handle_value_error_mixed pre post k v (.valueError m) elems hpre hv hmix]
  · simp only [mixed_row, group_preview_eq]

/-- Witness for the amended C4 at the spec's concrete mixed-type call. -/
theorem claim_C4_witness :
    c0.add_node mk_boom "Foo" (.vstr "x") (.vstr "y") "" 1
        [("vals", .vlist [.vint 1, .vstr "a"])]
      = (c0, some (.typeError (mixed_attr_msg "vals" [.vint 1, .vstr "a"]))) :=
  (claim_C4_amended_mixed_type_diagnostic mk_boom c0 "Foo" (.vstr "x") (.vstr "y")
    "" 1 [] [] "vals" (.vlist [.vint 1, .vstr "a"]) ["x"] ["y"] "boom"
    [.vint 1, .vstr "a"] rfl rfl rfl rfl (by simp) rfl (by decide)).1

/-- C8: starting from a fresh container, a sequence of successful
`add_node` calls leaves `node_domain_version_pair_sets` equal to the set
of the calls' (domain, version) pairs: each pair that appeared in some
call is present exactly once (the field is a set), membership is
exactly appearance in some call, and any successful permutation of the
calls produces the same pair set. -/
theorem claim_C8_pair_set_accumulation
    (make_node : MakeNodeFn) (t : Int) (calls : List NodeCall)
    (c' : ModelComponentContainer)
    (h : run_add_nodes make_node (ModelComponentContainer.init t) calls = some c') :
    c'.node_domain_version_pair_sets
      = (calls.map fun cl => (cl.op_domain, cl.op_version)).toFinset
    ∧ (∀ p, p ∈ c'.node_domain_version_pair_sets
        ↔ p ∈ calls.map fun cl => (cl.op_domain, cl.op_version))
    ∧ ∀ (calls2 : List NodeCall) (c2 : ModelComponentContainer),
        calls.Perm calls2 →
        run_add_nodes make_node (ModelComponentContainer.init t) calls2 = some c2 →
        c2.node_domain_version_pair_sets = c'.node_domain_version_pair_sets := by
  have hempty : (ModelComponentContainer.init t).node_domain_version_pair_sets
      = ∅ := rfl
  have h1 := run_add_nodes_pairs make_node calls (ModelComponentContainer.init t) c' h
  rw [hempty, Finset.empty_union] at h1
  refine ⟨h1, fun p => ?_, fun calls2 c2 hperm h2 => ?_⟩
  · rw [h1]; exact List.mem_toFinset
  · have h3 := run_add_nodes_pairs make_node calls2 (ModelComponentContainer.init t)
      c2 h2
    rw [hempty, Finset.empty_union] at h3
    rw [h3, h1]
    exact (List.toFinset_eq_of_perm _ _ (hperm.map _)).symm

/-- Witness for C8 on a concrete three-call run with a repeated pair and
a permuted re-run. -/
theorem claim_C8_witness :
    demo_c.node_domain_version_pair_sets
      = (demo_calls.map fun cl => (cl.op_domain, cl.op_version)).toFinset
    ∧ demo_c2.node_domain_version_pair_sets = demo_c.node_domain_version_pair_sets := by
  have h := claim_C8_pair_set_accumulation mk_plain 7 demo_calls demo_c rfl
  exact ⟨h.1, h.2.2 demo_calls2 demo_c2
    (List.Perm.swap demo_call2 demo_call1 [demo_call1]) rfl⟩
